import Mathlib

/-!
# versefind web client: the asynchronous coordination layer of `web/src/App.js`

A shallow embedding of the three React components of `App.js` that carry
behaviour (`App`, `SearchScreen`, `Track`) and of the platform objects they
drive (the cookie jar, the timer queue, the search transport, the shared
audio element).  Every handler of the source is a function on an explicit
state; a handler that is a closure takes the render it was created in as an
explicit argument, because a React closure reads the state variables of that
render and not the current ones.
-/

namespace VerseFind

/-! ## JavaScript values -/

/-- A string-valued JavaScript slot that may also hold `undefined` or `null`
(`trackData.spotify.preview_url`). -/
inductive JsStr where
  | undefined
  | null
  | str (s : String)
  deriving DecidableEq, Repr

/-- A value produced by `JSON.parse`. Numbers are kept as integers, the only
numbers the progress object carries (`n`, `total`). -/
inductive Json where
  | null
  | bool (b : Bool)
  | num (n : Int)
  | str (s : String)
  | arr (items : List Json)
  | obj (props : List (String × Json))

/-- The exceptions the modelled code can raise. -/
inductive JsError where
  | syntaxError
  | typeError
  deriving DecidableEq, Repr

/-- What `JSON.parse(msg.data)` does with the text of an inbound message: it
throws a `SyntaxError` when the text is not JSON, and returns the value
otherwise. -/
inductive ParseOutcome where
  | syntaxError
  | value (v : Json)

/-- The property read `status.complete`: a `TypeError` on `null`, the own
property of an object, `undefined` (`none`) on every other value. -/
def Json.complete : Json → Except JsError (Option Json)
  | .null => .error .typeError
  | .obj props => .ok (props.lookup "complete")
  | _ => .ok none

/-- JavaScript truthiness of a value that may be `undefined` (`none`). -/
def truthy : Option Json → Bool
  | none => false
  | some .null => false
  | some (.bool b) => b
  | some (.num n) => n != 0
  | some (.str s) => s != ""
  | some (.arr _) => true
  | some (.obj _) => true

/-! ## Data model -/

/-- The part of a track the coordination layer reads: its title and
`trackData.spotify.preview_url`. -/
structure Track where
  name : String
  previewLink : JsStr
  deriving DecidableEq, Repr

/-- The body of a search response, `{results, total}`; `total` is `none`
when the field is missing (`undefined`). -/
structure SearchData where
  results : List Track
  total : Option Nat
  deriving DecidableEq, Repr

/-- The values the state variable `searchResult` takes: the literal `[]`
(initial value, and the value `doSearch` sets before the request), `null`
(set by the `catch` branch), or the response body `resp.data`. -/
inductive SearchResult where
  | emptyArray
  | null
  | data (d : SearchData)
  deriving DecidableEq, Repr

/-- The property read `searchResult.length`: `0` on `[]`, `undefined`
(`none`) on a response body, which is an object without that property, and a
`TypeError` on `null`. -/
def SearchResult.length : SearchResult → Except JsError (Option Nat)
  | .emptyArray => .ok (some 0)
  | .null => .error .typeError
  | .data _ => .ok none

/-- The list rendered at line 295, `(searchResult?.results || [])`. -/
def SearchResult.rendered : SearchResult → List Track
  | .emptyArray => []
  | .null => []
  | .data d => d.results

/-- The constant `pageSize` of `SearchScreen`. -/
def pageSize : Nat := 20

/-- One `axios.get("/search", {params: {q, offset, limit}})`. -/
structure Request where
  q : String
  offset : Int
  limit : Nat
  deriving DecidableEq, Repr

/-- A pending `setTimeout(async () => await doSearch(query, page), 300)`: its
handle, the time it is due, and the `query` and `page` its callback closes
over. -/
structure Timer where
  handle : Nat
  due : Nat
  query : String
  page : Int
  deriving DecidableEq, Repr

/-- The state variables of `SearchScreen` as one render sees them. -/
structure Render where
  status : Option Json
  query : String
  page : Int
  searchTimeout : Option Nat
  searchCount : Option Nat
  searchResult : SearchResult

/-- The initial values given to `useState` in `SearchScreen`. -/
def Render.initial : Render :=
  { status := none, query := "*", page := 0, searchTimeout := none,
    searchCount := some 0, searchResult := .emptyArray }

/-- `SearchScreen` together with the platform around it: the current state
variables, the clock and the timer queue, the requests in flight (each with
the number it was issued under), the log of every request issued with its
time, whether `ws.current` exists, and the render captured by
`ws.current.onmessage` once it is installed. -/
structure World where
  ui : Render
  now : Nat
  timers : List Timer
  nextTimer : Nat
  inflight : List (Nat × Request)
  nextReq : Nat
  issued : List (Nat × Request)
  wsExists : Bool
  onmessage : Option Render

/-- A freshly mounted `SearchScreen` at time `0`; `App` has created the
socket in its own effect. -/
def World.initial : World :=
  { ui := Render.initial, now := 0, timers := [], nextTimer := 0, inflight := [],
    nextReq := 0, issued := [], wsExists := true, onmessage := none }

/-- The result of running a handler: the state it leaves and the exception
it raised to its caller, if any. -/
structure Outcome where
  world : World
  thrown : Option JsError

/-! ## `SearchScreen` -/

/-- The part of `doSearch(thisQuery, page)` that runs before its `await`
(lines 242-247): `setSearchResult([])`, `setQuery(thisQuery)`, and the call
`axios.get("/search", {params: {q: thisQuery, offset: page * pageSize, limit: pageSize}})`,
which puts one request in flight. The setters act on the current state. -/
def doSearch (thisQuery : String) (page : Int) (w : World) : World :=
  let req : Request := { q := thisQuery, offset := page * pageSize, limit := pageSize }
  { w with
    ui := { w.ui with searchResult := .emptyArray, query := thisQuery }
    inflight := w.inflight ++ [(w.nextReq, req)]
    issued := w.issued ++ [(w.now, req)]
    nextReq := w.nextReq + 1 }

/-- How the awaited `axios.get` settles: it rejects, or it resolves with a
response whose body is `resp.data`. -/
inductive Response where
  | failure
  | success (d : SearchData)
  deriving DecidableEq, Repr

/-- The part of `doSearch` that runs after its `await` (lines 248-256). The
rejection is caught: `setSearchResult(null)`, `setSearchCount(0)`, `return`.
Otherwise `setSearchResult(resp.data)`, `setSearchCount(resp.data.total)`.
Neither branch reads which request the response belongs to. -/
def doSearchResume (r : Response) (w : World) : Outcome :=
  match r with
  | .failure =>
      { world := { w with ui := { w.ui with searchResult := .null, searchCount := some 0 } }
        thrown := none }
  | .success d =>
      { world := { w with ui := { w.ui with searchResult := .data d, searchCount := d.total } }
        thrown := none }

/-- The transport settles the request issued under number `n`: the request
leaves the set in flight and its `doSearch` resumes. `none` when no such
request is in flight. -/
def deliver (n : Nat) (r : Response) (w : World) : Option Outcome :=
  if w.inflight.any (fun p => p.1 == n) then
    some (doSearchResume r { w with inflight := w.inflight.filter (fun p => p.1 != n) })
  else none

/-- The expression `Math.ceil((searchCount || 0) / pageSize)` of line 260 on
a count that is a non-negative integer or missing (`none`, read as 0 by
`|| 0`); the division is taken exactly. -/
def numPages (searchCount : Option Nat) : Nat :=
  Nat.ceil (((searchCount.getD 0 : Nat) : ℚ) / (pageSize : ℚ))

/-- The test `numPages > 1` of line 297 that decides whether `Pagination` is
rendered. -/
def paginationShown (searchCount : Option Nat) : Bool :=
  decide (numPages searchCount > 1)

/-- The platform call `clearTimeout(handle)`: no effect on `undefined` or on a
handle that is not pending. -/
def clearTimeout (handle : Option Nat) (w : World) : World :=
  match handle with
  | none => w
  | some h => { w with timers := w.timers.filter (fun t => t.handle != h) }

/-- The `onChange` handler of the `TextField` (lines 269-274), created in
render `env`, for `evt.target.value = text`. -/
def onChange (env : Render) (text : String) (w : World) : World :=
  let w1 := clearTimeout env.searchTimeout w
  let timeout := w1.nextTimer
  let timer : Timer := { handle := timeout, due := w1.now + 300, query := text, page := env.page }
  let w2 := { w1 with timers := w1.timers ++ [timer], nextTimer := timeout + 1 }
  { w2 with ui := { w2.ui with searchTimeout := some timeout } }

/-- The `onKeyDown` handler of the `TextField` (lines 275-279). -/
def onKeyDown (env : Render) (keyCode : Nat) (text : String) (w : World) : World :=
  let w1 := clearTimeout env.searchTimeout w
  if keyCode = 13 then doSearch text env.page w1 else w1

/-- The `onChange` handler of `Pagination` (lines 302-305), called with the
1-based `page`: `setPage(page - 1)` and `doSearch(query, page - 1)`. -/
def paginationOnChange (env : Render) (page : Int) (w : World) : World :=
  doSearch env.query (page - 1) { w with ui := { w.ui with page := page - 1 } }

/-- Time passes by `d` ms. Every timer that comes due fires at its due time,
in the order the timers were set, and its callback runs `doSearch` with the
`query` and `page` it closed over. -/
def advance (d : Nat) (w : World) : World :=
  let t := w.now + d
  let due := w.timers.filter (fun x => decide (x.due ≤ t))
  let w1 := { w with timers := w.timers.filter (fun x => !decide (x.due ≤ t)) }
  let w2 := due.foldl (fun v x => doSearch x.query x.page { v with now := max v.now x.due }) w1
  { w2 with now := t }

/-- One run of the interval callback of lines 225-238 created in render
`env`: it returns when the socket does not exist yet or already has a message
handler, and otherwise installs a handler that closes over `env`. -/
def pollTick (env : Render) (w : World) : World :=
  if !w.wsExists || w.onmessage.isSome then w else { w with onmessage := some env }

/-- The handler assigned to `ws.current.onmessage` (lines 227-236), created
in render `env`, on a message whose `JSON.parse` has outcome `msg`. No
statement before a throwing one changes the state, so an exception leaves the
state as it was. -/
def onmessage (env : Render) (msg : ParseOutcome) (w : World) : Outcome :=
  match msg with
  | .syntaxError => { world := w, thrown := some .syntaxError }
  | .value status =>
    match status.complete with
    | .error e => { world := w, thrown := some e }
    | .ok complete =>
      if truthy complete then
        match env.searchResult.length with
        | .error e => { world := w, thrown := some e }
        | .ok len =>
          let w1 := if len.getD 0 = 0 then doSearch env.query 0 w else w
          { world := { w1 with ui := { w1.ui with status := some status } }, thrown := none }
      else
        { world := { w with ui := { w.ui with status := some status } }, thrown := none }

/-! ## `App` -/

/-- The cookie jar `App` reaches through `useCookies`, with the log of the
`removeCookie` calls made. -/
structure AppState where
  cookies : List (String × String)
  removeCalls : List String
  deriving DecidableEq, Repr

/-- The call `removeCookie(name)`. -/
def removeCookie (name : String) (s : AppState) : AppState :=
  { cookies := s.cookies.filter (fun c => c.1 != name), removeCalls := s.removeCalls ++ [name] }

/-- The handler `ws.current.onclose` (lines 118-124) on a close event with
`evt.code = code`. -/
def onclose (code : Nat) (s : AppState) : AppState :=
  if code = 4000 then removeCookie "session" s else s

/-! ## `Track` and the shared audio element -/

/-- The string a content attribute receives when a JavaScript value is
assigned to the property that reflects it: `null` and `undefined` are
converted to the strings `null` and `undefined`. -/
def JsStr.toAttr : JsStr → String
  | .undefined => "undefined"
  | .null => "null"
  | .str s => s

/-- The document the client runs in, as far as the getter of
`audio.current.src` depends on it. The getter does not return the value
assigned: it returns the `src` attribute resolved against the document URL
(`resolve`), so it reads the document URL for the empty attribute and
`<origin>/null` for the attribute `null`. The client is served over http(s),
where the getter of an element that has the attribute never reads the empty
string (`resolve_ne`). -/
structure Page where
  resolve : String → String
  resolve_ne : ∀ s, resolve s ≠ ""

/-- The shared `Audio` element held in `App`'s ref `audio`: its `src`
content attribute, whether it is paused, and how often `play()` was called. -/
structure Audio where
  srcAttr : String
  paused : Bool
  playCalls : Nat
  deriving DecidableEq, Repr

/-- The element made by `new Audio("")` at line 108: the constructor sets the
`src` attribute to the empty string. -/
def Audio.initial : Audio := { srcAttr := "", paused := true, playCalls := 0 }

/-- The read `audio.current.src`: the attribute resolved against the
document URL. -/
def Audio.src (page : Page) (a : Audio) : String := page.resolve a.srcAttr

/-- The assignment `audio.current.src = v`: the attribute receives the string
form of `v`, and loading the new source stops what was playing. -/
def Audio.setSrc (v : JsStr) (a : Audio) : Audio :=
  { a with srcAttr := v.toAttr, paused := true }

/-- The call `play()`. -/
def Audio.play (a : Audio) : Audio := { a with paused := false, playCalls := a.playCalls + 1 }

/-- The call `pause()`. -/
def Audio.pause (a : Audio) : Audio := { a with paused := true }

/-- The handler `playAudio` of a `Track` whose `previewLink` is given (lines
326-338): `audio.current.src !== previewLink` compares the string the getter
reads with the preview value, and `audio.current.src === ""` tests that
string. No modelled call throws, so the `catch` branch is never entered and
nothing is raised to the caller. -/
def playAudio (page : Page) (previewLink : JsStr) (a : Audio) : Audio :=
  let a1 := if JsStr.str (a.src page) ≠ previewLink then a.setSrc previewLink else a
  if a1.src page = "" then a1 else a1.play

/-- The handler `pauseAudio` (line 339). -/
def pauseAudio (a : Audio) : Audio := a.pause

/-- A pointer event on a track: `onMouseEnter` runs `playAudio`, and
`onMouseLeave` runs `pauseAudio`. -/
inductive Hover where
  | enter (t : Track)
  | leave
  deriving DecidableEq, Repr

/-- The handler a pointer event runs. -/
def Hover.run (page : Page) (a : Audio) : Hover → Audio
  | .enter t => playAudio page t.previewLink a
  | .leave => pauseAudio a

/-- The audio element after a sequence of pointer events, oldest first. -/
def runHovers (page : Page) (evs : List Hover) (a : Audio) : Audio :=
  evs.foldl (Hover.run page) a

/-- The preview URL of the track entered last in a sequence of pointer
events, `none` when no track was entered. -/
def lastHovered : List Hover → Option JsStr
  | [] => none
  | ev :: rest =>
    match lastHovered rest with
    | some u => some u
    | none => match ev with
      | .enter t => some t.previewLink
      | .leave => none

/-- The element is bound to the preview value `p`: the attribute was given
`p`, or the source the element reads is `p` already. -/
def Audio.boundTo (page : Page) (a : Audio) (p : JsStr) : Prop :=
  a.srcAttr = p.toAttr ∨ JsStr.str (a.src page) = p

/-! ## Events on a mounted `SearchScreen` -/

/-- What can happen to a mounted `SearchScreen`. A React event handler is
the one of the current render, since React renders again after each event
that set state. -/
inductive Event where
  | change (text : String)
  | keyDown (keyCode : Nat) (text : String)
  | pageChange (page : Int)
  | message (msg : ParseOutcome)
  | response (n : Nat) (r : Response)
  | wait (d : Nat)
  | poll (env : Render)

/-- The effect of one event. A message reaches the installed handler, if
there is one; a response is taken only for a request in flight. -/
def step (w : World) : Event → World
  | .change text => onChange w.ui text w
  | .keyDown keyCode text => onKeyDown w.ui keyCode text w
  | .pageChange page => paginationOnChange w.ui page w
  | .message msg =>
    match w.onmessage with
    | none => w
    | some env => (onmessage env msg w).world
  | .response n r =>
    match deliver n r w with
    | none => w
    | some o => o.world
  | .wait d => advance d w
  | .poll env => pollTick env w

/-- The effect of a sequence of events, oldest first. -/
def run (evs : List Event) (w : World) : World := evs.foldl step w

/-- A burst of text changes: the first one now, and each later one given
with the time in ms since the one before it. -/
def burst (first : String) (rest : List (Nat × String)) : List Event :=
  .change first :: rest.flatMap (fun p => [.wait p.1, .change p.2])

/-- The text of the last change of a burst. -/
def lastText (first : String) (rest : List (Nat × String)) : String :=
  (rest.getLast?.map (fun p => p.2)).getD first

/-- The time of the last change of a burst that starts at `start`. -/
def lastTime (start : Nat) (rest : List (Nat × String)) : Nat :=
  start + (rest.map (fun p => p.1)).sum

/-- Every pending timer is the one whose handle `searchTimeout` holds (so
there is at most one). -/
def TimerInv (w : World) : Prop :=
  w.timers = [] ∨ ∃ t, w.timers = [t] ∧ w.ui.searchTimeout = some t.handle

/-- The timer set by the last text change is the only one pending: it is due
at `due` and carries `text` and the current page. -/
def Pending (w : World) (text : String) (due : Nat) : Prop :=
  ∃ h, w.timers = [{ handle := h, due := due, query := text, page := w.ui.page }]
    ∧ w.ui.searchTimeout = some h

/-! ## States and messages used as concrete inputs -/

/-- A `SearchScreen` showing the first page of 45 results for `love`. -/
def World.fortyFive : World :=
  { World.initial with
    ui := { Render.initial with
      query := "love", searchCount := some 45,
      searchResult := .data { results := [], total := some 45 } } }

/-- The body of the response to the older request of the stale-response
scenario: seven results in all. -/
def dataA : SearchData :=
  { results := [{ name := "Hurt", previewLink := .str "https://p.scdn.co/mp3-preview/a" }]
    total := some 7 }

/-- The body of the response to the newer request of the stale-response
scenario: one result. -/
def dataB : SearchData :=
  { results := [{ name := "Ghosts", previewLink := .null }], total := some 1 }

/-- The last progress report of an indexing run, `complete = true`. -/
def completeMsg : ParseOutcome :=
  .value (.obj [("text", .str "Done"), ("n", .num 10), ("total", .num 10),
    ("complete", .bool true)])

/-- A `SearchScreen` on which the user searched for `love` and one result is
loaded. -/
def World.loaded : World :=
  { World.initial with
    ui := { Render.initial with
      query := "love", searchCount := some 1,
      searchResult := .data { results := [{ name := "Ghosts", previewLink := .null }],
                              total := some 1 } }
    onmessage := some Render.initial }

/-- A page served from `https://versefind.test/`: an attribute that is an
`https` URL is read back as it is, every other attribute is read back with
the document URL in front of it. -/
def Page.sample : Page :=
  { resolve := fun s => if s.startsWith "https://" then s else "https://versefind.test/" ++ s
    resolve_ne := by
      intro s
      show (if s.startsWith "https://" = true then s else "https://versefind.test/" ++ s) ≠ ""
      split
      · rename_i h
        intro hs
        subst hs
        revert h
        decide
      · intro hs
        have hlen := congrArg String.length hs
        rw [String.length_append] at hlen
        have h23 : "https://versefind.test/".length = 23 := by decide
        have h0 : "".length = 0 := by decide
        omega }

/-- A track with a preview. -/
def trackHurt : Track :=
  { name := "Hurt", previewLink := .str "https://p.scdn.co/mp3-preview/a" }

/-- A track whose `preview_url` is `null`. -/
def trackGhosts : Track := { name := "Ghosts", previewLink := .null }

/-! ## Page count and session gate -/

theorem numPages_le_iff (searchCount : Option Nat) (n : Nat) :
    numPages searchCount ≤ n ↔ searchCount.getD 0 ≤ 20 * n := by
  unfold numPages pageSize
  rw [Nat.ceil_le, div_le_iff₀ (by norm_num : (0 : ℚ) < ((20 : ℕ) : ℚ))]
  constructor
  · intro h
    have h2 : ((searchCount.getD 0 : ℕ) : ℚ) ≤ ((20 * n : ℕ) : ℚ) := by
      push_cast at h ⊢; linarith
    exact_mod_cast h2
  · intro h
    have h2 : ((searchCount.getD 0 : ℕ) : ℚ) ≤ ((20 * n : ℕ) : ℚ) := by
      exact_mod_cast h
    push_cast at h2 ⊢; linarith

/-- A count of 45 gives 3 pages. -/
theorem numPages_fortyFive : numPages (some 45) = 3 := by
  have h3 := (numPages_le_iff (some 45) 3).2 (by simp)
  have h2 := numPages_le_iff (some 45) 2
  simp at h2
  omega

/-- C5: for every result count `total` (a missing count read as 0) the page
count `numPages` is the least `n` with `20 * n >= total`; the pagination
control is rendered exactly when `numPages > 1`, which is exactly when
`total > 20`; and a count of 45 gives 3 pages. -/
theorem numPages_is_ceiling (searchCount : Option Nat) :
    (searchCount.getD 0 ≤ 20 * numPages searchCount
      ∧ ∀ n, searchCount.getD 0 ≤ 20 * n → numPages searchCount ≤ n)
    ∧ (paginationShown searchCount = true ↔ numPages searchCount > 1)
    ∧ (numPages searchCount > 1 ↔ searchCount.getD 0 > 20)
    ∧ numPages (some 45) = 3 := by
  refine ⟨⟨(numPages_le_iff searchCount _).1 le_rfl,
    fun n h => (numPages_le_iff searchCount n).2 h⟩, ?_, ?_, ?_⟩
  · simp [paginationShown]
  · have h := numPages_le_iff searchCount 1
    omega
  · exact numPages_fortyFive

/-- C7: on a close event with code 4000 the handler calls
`removeCookie("session")` exactly once and the session cookie is gone; on
every other code it leaves the cookie jar and the call log as they were. -/
theorem onclose_clears_session_only_on_4000 (code : Nat) (s : AppState) :
    (code = 4000 →
      (onclose code s).removeCalls = s.removeCalls ++ ["session"]
      ∧ (onclose code s).cookies.lookup "session" = none
      ∧ ∀ name, name ≠ "session" →
          (onclose code s).cookies.lookup name = s.cookies.lookup name)
    ∧ (code ≠ 4000 → onclose code s = s) := by
  have hfilter : ∀ (cs : List (String × String)) (name : String),
      (cs.filter (fun c => c.1 != "session")).lookup name
        = if name = "session" then none else cs.lookup name := by
    intro cs name
    induction cs with
    | nil => simp
    | cons c cs ih =>
      obtain ⟨k, v⟩ := c
      by_cases hk : k = "session"
      · subst hk
        have hdrop : (("session", v) :: cs).filter (fun c => c.1 != "session")
            = cs.filter (fun c => c.1 != "session") := by simp [List.filter_cons]
        rw [hdrop, ih]
        by_cases hn : name = "session"
        · simp [hn]
        · have hne : (name == "session") = false := by simpa using hn
          simp [hn, List.lookup_cons, hne]
      · have hkeep : ((k, v) :: cs).filter (fun c => c.1 != "session")
            = (k, v) :: cs.filter (fun c => c.1 != "session") := by
          simp [List.filter_cons, hk]
        rw [hkeep, List.lookup_cons, List.lookup_cons, ih]
        by_cases hn : name = "session"
        · subst hn
          have hne : ("session" == k) = false := by simpa using fun h => hk h.symm
          simp [hne]
        · simp [hn]
  constructor
  · intro h
    subst h
    refine ⟨by simp [onclose, removeCookie], ?_, ?_⟩
    · simp [onclose, removeCookie, hfilter]
    · intro name hname
      simp [onclose, removeCookie, hfilter, hname]
  · intro h
    simp [onclose, h]

/-- Witness for C7: a jar holding a session cookie, closed with 4000 and
with 1006. -/
theorem onclose_clears_session_only_on_4000_witness :
    (onclose 4000 { cookies := [("session", "abc"), ("theme", "dark")], removeCalls := [] }).removeCalls
        = ["session"]
    ∧ onclose 1006 { cookies := [("session", "abc")], removeCalls := [] }
        = { cookies := [("session", "abc")], removeCalls := [] } :=
  ⟨((onclose_clears_session_only_on_4000 4000
      { cookies := [("session", "abc"), ("theme", "dark")], removeCalls := [] }).1 rfl).1,
   (onclose_clears_session_only_on_4000 1006
      { cookies := [("session", "abc")], removeCalls := [] }).2 (by decide)⟩

/-! ## Search requests and their responses -/

/-- C4: for every 0-based page index `i` below the page count, the
`Pagination` handler called with the 1-based page `i + 1` issues, at the
current time, exactly one search request, for the current query with
`offset = i * 20` and `limit = 20`, and sets the page to `i`; with a count
of 45 the page count is 3 and page index 2 gives `offset = 40`,
`limit = 20`. -/
theorem paginationOnChange_issues_page_request (w : World) (i : Nat)
    (_hi : i < numPages w.ui.searchCount) :
    (paginationOnChange w.ui ((i : Int) + 1) w).issued
        = w.issued ++ [(w.now, { q := w.ui.query, offset := (i : Int) * 20, limit := 20 })]
    ∧ (paginationOnChange w.ui ((i : Int) + 1) w).inflight
        = w.inflight ++ [(w.nextReq, { q := w.ui.query, offset := (i : Int) * 20, limit := 20 })]
    ∧ (paginationOnChange w.ui ((i : Int) + 1) w).ui.page = i
    ∧ (w.ui.searchCount = some 45 →
        numPages w.ui.searchCount = 3
        ∧ (paginationOnChange w.ui 3 w).issued
            = w.issued ++ [(w.now, { q := w.ui.query, offset := 40, limit := 20 })]) := by
  refine ⟨?_, ?_, ?_, ?_⟩
  · simp [paginationOnChange, doSearch, pageSize]
  · simp [paginationOnChange, doSearch, pageSize]
  · simp [paginationOnChange, doSearch]
  · intro h45
    refine ⟨?_, ?_⟩
    · rw [h45]; exact numPages_fortyFive
    · simp [paginationOnChange, doSearch, pageSize]

/-- Witness for C4: with 45 results, page index 2 is below the page count
and its request has offset 40. -/
theorem paginationOnChange_issues_page_request_witness :
    (paginationOnChange World.fortyFive.ui 3 World.fortyFive).issued
      = [(0, { q := "love", offset := 40, limit := 20 })] :=
  (paginationOnChange_issues_page_request World.fortyFive 2
    (by
      have h := numPages_fortyFive
      show 2 < numPages (some 45)
      omega)).1

/-- The request a `doSearch` has just issued is in flight, so its response
can be delivered. -/
theorem deliver_doSearch (thisQuery : String) (page : Int) (r : Response) (w : World) :
    deliver w.nextReq r (doSearch thisQuery page w)
      = some (doSearchResume r
          { doSearch thisQuery page w with
            inflight := (doSearch thisQuery page w).inflight.filter (fun p => p.1 != w.nextReq) }) := by
  simp [deliver, doSearch]

/-- C6: when the request made by `doSearch` is rejected, `doSearch` resumes
and completes without raising anything to its caller, and it leaves
`searchResult = null`, which renders as the empty item list, and
`searchCount = 0` (so the page count is 0). -/
theorem doSearch_failure_defaults (thisQuery : String) (page : Int) (w : World) :
    ∃ o, deliver w.nextReq .failure (doSearch thisQuery page w) = some o
      ∧ o.thrown = none
      ∧ o.world.ui.searchResult = .null
      ∧ o.world.ui.searchResult.rendered = []
      ∧ o.world.ui.searchCount = some 0
      ∧ numPages o.world.ui.searchCount = 0 := by
  refine ⟨_, deliver_doSearch thisQuery page .failure w, rfl, rfl, rfl, rfl, ?_⟩
  have h := (numPages_le_iff (some 0) 0).2 (by simp)
  simpa [doSearchResume] using h

/-- C1 fails on the code: `doSearch("a", 0)` is issued as request 0, then
`doSearch("b", 0)` as request 1; the response to request 1 arrives and is
shown; then the response to request 0 arrives and replaces both
`searchResult` and `searchCount`, while `query` still reads `b`. -/
theorem stale_response_overwrites_visible_state :
    ∃ o2 o1,
      deliver 1 (.success dataB) (doSearch "b" 0 (doSearch "a" 0 World.initial)) = some o2
      ∧ deliver 0 (.success dataA) o2.world = some o1
      ∧ o2.world.ui.searchResult = .data dataB ∧ o2.world.ui.searchCount = some 1
      ∧ o1.world.ui.searchResult = .data dataA ∧ o1.world.ui.searchCount = some 7
      ∧ o1.world.ui.query = "b"
      ∧ ¬ (o1.world.ui.searchResult = o2.world.ui.searchResult
            ∧ o1.world.ui.searchCount = o2.world.ui.searchCount) := by
  refine ⟨_, _, rfl, rfl, rfl, rfl, rfl, rfl, rfl, ?_⟩
  intro h
  exact absurd h.2 (by decide)

/-- C1 as amended: the response of every request in flight is applied when
it arrives, whether or not a newer request has been issued since. A
success sets `searchResult` to the response body and `searchCount` to its
`total`; a failure sets `searchResult = null` and `searchCount = 0`; `query`
keeps the text of the request issued last. Nothing is raised. -/
theorem response_applied_on_arrival (w : World) (n : Nat) (r : Response)
    (hn : w.inflight.any (fun p => p.1 == n) = true) :
    ∃ o, deliver n r w = some o
      ∧ o.thrown = none
      ∧ o.world.ui.searchResult
          = (match r with | .failure => SearchResult.null | .success d => SearchResult.data d)
      ∧ o.world.ui.searchCount = (match r with | .failure => some 0 | .success d => d.total)
      ∧ o.world.ui.query = w.ui.query
      ∧ o.world.issued = w.issued := by
  refine ⟨doSearchResume r { w with inflight := w.inflight.filter (fun p => p.1 != n) }, ?_, ?_⟩
  · simp only [deliver, hn, if_true]
  · cases r <;> exact ⟨rfl, rfl, rfl, rfl, rfl⟩

/-- Witness for the amended C1: request 0 is still in flight after request
1 was issued, and its response is applied. -/
theorem response_applied_on_arrival_witness :
    ∃ o, deliver 0 (.success dataA) (doSearch "b" 0 (doSearch "a" 0 World.initial)) = some o
      ∧ o.thrown = none
      ∧ o.world.ui.searchResult = .data dataA
      ∧ o.world.ui.searchCount = some 7
      ∧ o.world.ui.query = "b"
      ∧ o.world.issued = [(0, { q := "a", offset := 0, limit := 20 }),
                          (0, { q := "b", offset := 0, limit := 20 })] :=
  response_applied_on_arrival (doSearch "b" 0 (doSearch "a" 0 World.initial)) 0
    (.success dataA) (by decide)

/-! ## Progress messages -/

/-- On a message with a truthy `complete`, a handler whose render holds a
`searchResult` other than `null` issues exactly one request, for the query
of its render at offset 0 with limit 20, and stores the status. -/
theorem onmessage_complete_issues_search (env : Render) (status : Json) (w : World)
    (c : Option Json) (hc : status.complete = .ok c) (ht : truthy c = true)
    (hres : env.searchResult ≠ .null) :
    (onmessage env (.value status) w).thrown = none
    ∧ (onmessage env (.value status) w).world.issued
        = w.issued ++ [(w.now, { q := env.query, offset := 0, limit := 20 })]
    ∧ (onmessage env (.value status) w).world.ui.status = some status := by
  unfold onmessage
  simp only [hc, ht, if_true]
  cases hr : env.searchResult with
  | null => exact absurd hr hres
  | emptyArray => simp [SearchResult.length, doSearch, pageSize]
  | data d => simp [SearchResult.length, doSearch, pageSize]

/-- C2 fails on the code: with one result loaded (`searchCount = 1`) a
`complete = true` message makes the handler issue a search request. The
handler installed by the first render, which closes over `searchResult = []`
and `query = "*"`, issues it for `*` and resets the result list; a handler
closing over the loaded response body issues it too, for `love`, because the
body is an object and has no `length`. -/
theorem complete_message_refreshes_over_loaded_results :
    World.loaded.ui.searchCount = some 1
    ∧ (onmessage Render.initial completeMsg World.loaded).world.issued
        = [(0, { q := "*", offset := 0, limit := 20 })]
    ∧ (onmessage Render.initial completeMsg World.loaded).world.ui.searchResult = .emptyArray
    ∧ (onmessage World.loaded.ui completeMsg World.loaded).world.issued
        = [(0, { q := "love", offset := 0, limit := 20 })]
    ∧ (onmessage World.loaded.ui completeMsg World.loaded).world.ui.searchResult = .emptyArray := by
  refine ⟨rfl, ?_, ?_, ?_, ?_⟩ <;> decide

/-- C8 fails on the code: a message that is not JSON makes the handler
throw, and a message that is JSON but no progress object (the number 42) is
stored as the status. -/
theorem malformed_message_not_dropped :
    (onmessage Render.initial .syntaxError World.initial).thrown = some .syntaxError
    ∧ (onmessage Render.initial (.value (.num 42)) World.initial).thrown = none
    ∧ (onmessage Render.initial (.value (.num 42)) World.initial).world.ui.status
        = some (.num 42)
    ∧ (onmessage Render.initial (.value (.num 42)) World.initial).world.ui.status
        ≠ World.initial.ui.status := by
  refine ⟨rfl, rfl, rfl, ?_⟩
  intro h
  exact Option.noConfusion h

/-- C8 as amended: the handler validates nothing. On a message whose data is
not JSON, and on one whose data is the JSON value `null`, it throws to its
caller (a `SyntaxError` from `JSON.parse`, a `TypeError` from
`status.complete`) and leaves the status, the requests issued and the
requests in flight as they were. Every other JSON value `v`, progress object
or not, has a readable `complete`. When that is absent or falsy the handler
does not throw, issues no request, and stores `v` as the status. When it is
truthy the handler takes `v` for a final report: it stores `v` as the status
and issues one request (the query of its render, offset 0, limit 20), or,
when the `searchResult` of its render is `null`, throws a `TypeError` and
leaves the state as it was. -/
theorem onmessage_does_not_validate (env : Render) (w : World) :
    ((onmessage env .syntaxError w).thrown = some .syntaxError
      ∧ (onmessage env .syntaxError w).world.ui.status = w.ui.status
      ∧ (onmessage env .syntaxError w).world.issued = w.issued
      ∧ (onmessage env .syntaxError w).world.inflight = w.inflight)
    ∧ ((onmessage env (.value .null) w).thrown = some .typeError
      ∧ (onmessage env (.value .null) w).world.ui.status = w.ui.status
      ∧ (onmessage env (.value .null) w).world.issued = w.issued
      ∧ (onmessage env (.value .null) w).world.inflight = w.inflight)
    ∧ (∀ v : Json, v ≠ .null → ∃ c, v.complete = .ok c)
    ∧ (∀ (v : Json) (c : Option Json), v.complete = .ok c →
        (truthy c = false →
          (onmessage env (.value v) w).thrown = none
          ∧ (onmessage env (.value v) w).world.ui.status = some v
          ∧ (onmessage env (.value v) w).world.issued = w.issued
          ∧ (onmessage env (.value v) w).world.inflight = w.inflight)
        ∧ (truthy c = true → env.searchResult ≠ .null →
          (onmessage env (.value v) w).thrown = none
          ∧ (onmessage env (.value v) w).world.ui.status = some v
          ∧ (onmessage env (.value v) w).world.issued
              = w.issued ++ [(w.now, { q := env.query, offset := 0, limit := 20 })])
        ∧ (truthy c = true → env.searchResult = .null →
          (onmessage env (.value v) w).thrown = some .typeError
          ∧ (onmessage env (.value v) w).world.ui.status = w.ui.status
          ∧ (onmessage env (.value v) w).world.issued = w.issued
          ∧ (onmessage env (.value v) w).world.inflight = w.inflight)) := by
  refine ⟨⟨rfl, rfl, rfl, rfl⟩, ⟨rfl, rfl, rfl, rfl⟩, ?_, ?_⟩
  · intro v hv
    cases v with
    | null => exact absurd rfl hv
    | bool b => exact ⟨_, rfl⟩
    | num n => exact ⟨_, rfl⟩
    | str t => exact ⟨_, rfl⟩
    | arr items => exact ⟨_, rfl⟩
    | obj props => exact ⟨_, rfl⟩
  · intro v c hc
    refine ⟨?_, ?_, ?_⟩
    · intro ht
      simp [onmessage, hc, ht]
    · intro ht hres
      obtain ⟨h1, h2, h3⟩ := onmessage_complete_issues_search env v w c hc ht hres
      exact ⟨h1, h3, h2⟩
    · intro ht hres
      simp [onmessage, hc, ht, hres, SearchResult.length]

/-- Witness for the amended C8: the number 42 has no `complete`, so it is
stored as the status without a throw and without a request. -/
theorem onmessage_does_not_validate_witness :
    (onmessage Render.initial (.value (.num 42)) World.initial).thrown = none
    ∧ (onmessage Render.initial (.value (.num 42)) World.initial).world.ui.status
        = some (.num 42)
    ∧ (onmessage Render.initial (.value (.num 42)) World.initial).world.issued = []
    ∧ (onmessage Render.initial (.value (.num 42)) World.initial).world.inflight = [] :=
  ((onmessage_does_not_validate Render.initial World.initial).2.2.2 (.num 42) none rfl).1 rfl

/-! ## Audio preview -/

/-- The first statement of `playAudio` leaves the element bound to the
preview value and does not call `play()`. -/
theorem rebind_bound (page : Page) (previewLink : JsStr) (a : Audio) :
    Audio.boundTo page
        (if JsStr.str (a.src page) ≠ previewLink then a.setSrc previewLink else a) previewLink
    ∧ (if JsStr.str (a.src page) ≠ previewLink then a.setSrc previewLink else a).playCalls
        = a.playCalls := by
  split
  · exact ⟨Or.inl rfl, rfl⟩
  · rename_i h
    exact ⟨Or.inr (not_not.mp h), rfl⟩

/-- The guard `audio.current.src === ""` never holds, so `playAudio` calls
`play()` once whatever the preview value is, and leaves the element bound to
that value and playing. -/
theorem playAudio_plays (page : Page) (previewLink : JsStr) (a : Audio) :
    Audio.boundTo page (playAudio page previewLink a) previewLink
    ∧ (playAudio page previewLink a).paused = false
    ∧ (playAudio page previewLink a).playCalls = a.playCalls + 1 := by
  obtain ⟨h1, h2⟩ := rebind_bound page previewLink a
  simp only [playAudio]
  generalize (if JsStr.str (a.src page) ≠ previewLink then a.setSrc previewLink else a) = a1
    at h1 h2 ⊢
  split
  · rename_i h3
    exact absurd h3 (page.resolve_ne _)
  · exact ⟨h1, rfl, by simp only [Audio.play, h2]⟩

/-- For tracks `A` and `B`, `playAudio` of `A` followed by `playAudio` of `B`
leaves the one element bound to the preview value of `B` and playing. -/
theorem playAudio_pair (page : Page) (a : Audio) (A B : Track) :
    Audio.boundTo page (playAudio page B.previewLink (playAudio page A.previewLink a))
        B.previewLink
    ∧ (playAudio page B.previewLink (playAudio page A.previewLink a)).paused = false :=
  ⟨(playAudio_plays page B.previewLink _).1, (playAudio_plays page B.previewLink _).2.1⟩

/-- After a sequence of pointer events in which a track was entered, the
element is bound to the preview value of the track entered last. -/
theorem runHovers_bound (page : Page) (evs : List Hover) :
    ∀ (a : Audio) (u : JsStr), lastHovered evs = some u →
      Audio.boundTo page (runHovers page evs a) u := by
  induction evs with
  | nil => intro a u h; simp [lastHovered] at h
  | cons ev rest ih =>
    intro a u h
    have hstep : runHovers page (ev :: rest) a = runHovers page rest (ev.run page a) := rfl
    rw [hstep]
    cases hl : lastHovered rest with
    | some v =>
      have hv : v = u := by simpa [lastHovered, hl] using h
      exact ih _ u (hv ▸ hl)
    | none =>
      cases ev with
      | leave => simp [lastHovered, hl] at h
      | enter t =>
        have ht : t.previewLink = u := by simpa [lastHovered, hl] using h
        have hkeep : ∀ (l : List Hover) (b : Audio), lastHovered l = none →
            (runHovers page l b).srcAttr = b.srcAttr := by
          intro l
          induction l with
          | nil => intro b _; rfl
          | cons e l ihl =>
            intro b hb
            cases hr : lastHovered l with
            | some w => simp [lastHovered, hr] at hb
            | none =>
              cases e with
              | enter t2 => simp [lastHovered, hr] at hb
              | leave => exact ihl (pauseAudio b) hr
        subst ht
        have hb := (playAudio_plays page t.previewLink a).1
        have hattr := hkeep rest (playAudio page t.previewLink a) hl
        unfold Audio.boundTo Audio.src at hb ⊢
        show (runHovers page rest (playAudio page t.previewLink a)).srcAttr = t.previewLink.toAttr
          ∨ JsStr.str (page.resolve (runHovers page rest (playAudio page t.previewLink a)).srcAttr)
              = t.previewLink
        rw [hattr]
        exact hb

/-- C9 fails on the code: for a track whose `preview_url` is `null` (or
`undefined`) and the idle element made by `new Audio("")`, on every page,
`playAudio` assigns that value to `src`, reads back a source that is not the
empty string, and calls `play()`: the element is no longer paused. The same
happens for the empty string as preview URL, since the guard
`audio.current.src === ""` never holds. On the page served from
`https://versefind.test/` the source read back is
`https://versefind.test/null`. -/
theorem playAudio_absent_preview_starts_playback (page : Page) :
    playAudio page .null Audio.initial = { srcAttr := "null", paused := false, playCalls := 1 }
    ∧ playAudio page .undefined Audio.initial
        = { srcAttr := "undefined", paused := false, playCalls := 1 }
    ∧ playAudio page (.str "") Audio.initial
        = { srcAttr := "", paused := false, playCalls := 1 }
    ∧ (playAudio Page.sample .null Audio.initial).src Page.sample
        = "https://versefind.test/null" := by
  have hne := page.resolve_ne
  refine ⟨?_, ?_, ?_, by decide⟩
  · simp [playAudio, Audio.src, Audio.setSrc, Audio.play, Audio.initial, JsStr.toAttr, hne]
  · simp [playAudio, Audio.src, Audio.setSrc, Audio.play, Audio.initial, JsStr.toAttr, hne]
  · simp [playAudio, Audio.src, Audio.setSrc, Audio.play, Audio.initial, JsStr.toAttr, hne]

/-- C10 fails on the code: on every page, after the pointer enters a track
with a preview, leaves it, and enters a track whose `preview_url` is `null`,
the track entered last has no preview URL, yet the one shared element is not
idle: its `src` attribute is the string `null`, it reads a source that is not
the empty string, `play()` was called a second time and the element is
playing. -/
theorem hover_absent_preview_binds_and_plays (page : Page) :
    lastHovered [.enter trackHurt, .leave, .enter trackGhosts] = some .null
    ∧ runHovers page [.enter trackHurt, .leave, .enter trackGhosts] Audio.initial
        = { srcAttr := "null", paused := false, playCalls := 2 }
    ∧ (runHovers page [.enter trackHurt, .leave, .enter trackGhosts] Audio.initial).src page
        ≠ "" := by
  have hne := page.resolve_ne
  have h1 := playAudio_plays page trackHurt.previewLink Audio.initial
  have hrun : runHovers page [.enter trackHurt, .leave, .enter trackGhosts] Audio.initial
      = playAudio page .null (pauseAudio (playAudio page trackHurt.previewLink Audio.initial)) :=
    rfl
  have hcalls : (pauseAudio (playAudio page trackHurt.previewLink Audio.initial)).playCalls = 1 := by
    simpa [pauseAudio, Audio.pause, Audio.initial] using h1.2.2
  have hfinal : playAudio page .null
      (pauseAudio (playAudio page trackHurt.previewLink Audio.initial))
        = { srcAttr := "null", paused := false, playCalls := 2 } := by
    generalize pauseAudio (playAudio page trackHurt.previewLink Audio.initial) = b at hcalls
    simp [playAudio, Audio.src, Audio.setSrc, Audio.play, JsStr.toAttr, hne, hcalls]
  refine ⟨rfl, ?_, ?_⟩
  · rw [hrun, hfinal]
  · rw [hrun, hfinal]
    exact hne _

/-! ## Debounced text input -/

theorem doSearch_timers (q : String) (p : Int) (w : World) :
    (doSearch q p w).timers = w.timers ∧ (doSearch q p w).ui.searchTimeout = w.ui.searchTimeout :=
  ⟨rfl, rfl⟩

theorem clearTimeout_inv (w : World) (hw : TimerInv w) :
    (clearTimeout w.ui.searchTimeout w).timers = [] := by
  rcases hw with h | ⟨t, ht, hs⟩
  · cases hst : w.ui.searchTimeout with
    | none => simpa [clearTimeout] using h
    | some k => simp [clearTimeout, h]
  · simp [clearTimeout, hs, ht]

theorem onChange_pending (w : World) (hw : TimerInv w) (text : String) :
    Pending (step w (.change text)) text (w.now + 300)
    ∧ (step w (.change text)).issued = w.issued
    ∧ (step w (.change text)).now = w.now
    ∧ (step w (.change text)).ui.page = w.ui.page := by
  have hc := clearTimeout_inv w hw
  have hrest : (clearTimeout w.ui.searchTimeout w).now = w.now
      ∧ (clearTimeout w.ui.searchTimeout w).issued = w.issued
      ∧ (clearTimeout w.ui.searchTimeout w).ui = w.ui := by
    cases w.ui.searchTimeout <;> exact ⟨rfl, rfl, rfl⟩
  obtain ⟨h1, h2, h3⟩ := hrest
  refine ⟨⟨(clearTimeout w.ui.searchTimeout w).nextTimer, ?_, ?_⟩, ?_, ?_, ?_⟩
  · simp [step, onChange, hc, h1, h3]
  · simp [step, onChange]
  · simp [step, onChange, h2]
  · simp [step, onChange, h1]
  · simp [step, onChange, h3]

theorem Pending.timerInv {w : World} {text : String} {due : Nat} (h : Pending w text due) :
    TimerInv w := by
  obtain ⟨k, ht, hs⟩ := h
  exact Or.inr ⟨_, ht, hs⟩

theorem advance_short (w : World) (text : String) (due : Nat) (hp : Pending w text due)
    (g : Nat) (hg : w.now + g < due) :
    Pending (advance g w) text due
    ∧ (advance g w).issued = w.issued
    ∧ (advance g w).now = w.now + g
    ∧ (advance g w).ui.page = w.ui.page := by
  obtain ⟨k, ht, hs⟩ := hp
  have hnd : ¬ (due ≤ w.now + g) := by omega
  refine ⟨⟨k, ?_, ?_⟩, ?_, ?_, ?_⟩ <;> simp [advance, ht, hnd, hs]

theorem advance_long (w : World) (text : String) (due : Nat) (hp : Pending w text due)
    (d : Nat) (hlo : w.now ≤ due) (hd : due ≤ w.now + d) :
    (advance d w).issued
        = w.issued ++ [(due, { q := text, offset := w.ui.page * 20, limit := 20 })]
    ∧ (advance d w).timers = [] := by
  obtain ⟨k, ht, hs⟩ := hp
  refine ⟨?_, ?_⟩ <;> simp [advance, ht, hd, doSearch, pageSize, hlo]

theorem burst_pending (rest : List (Nat × String)) :
    ∀ (w : World) (text : String), Pending w text (w.now + 300) →
      (∀ p ∈ rest, p.1 < 300) →
      Pending (run (rest.flatMap (fun p => [Event.wait p.1, Event.change p.2])) w)
          (lastText text rest) (lastTime w.now rest + 300)
      ∧ (run (rest.flatMap (fun p => [Event.wait p.1, Event.change p.2])) w).issued = w.issued
      ∧ (run (rest.flatMap (fun p => [Event.wait p.1, Event.change p.2])) w).now
          = lastTime w.now rest
      ∧ (run (rest.flatMap (fun p => [Event.wait p.1, Event.change p.2])) w).ui.page
          = w.ui.page := by
  induction rest with
  | nil =>
    intro w text hp _
    simpa [run, lastText, lastTime] using hp
  | cons p rest ih =>
    intro w text hp hgap
    have hg : p.1 < 300 := hgap p (List.mem_cons_self _ _)
    obtain ⟨ha, hai, han, hap⟩ := advance_short w text (w.now + 300) hp p.1 (by omega)
    obtain ⟨hb, hbi, hbn, hbp⟩ := onChange_pending (advance p.1 w) ha.timerInv p.2
    rw [← hbn] at hb
    have hrun : run ((p :: rest).flatMap (fun p => [Event.wait p.1, Event.change p.2])) w
        = run (rest.flatMap (fun p => [Event.wait p.1, Event.change p.2]))
            (step (advance p.1 w) (.change p.2)) := by
      simp [run, step]
    obtain ⟨hc, hci, hcn, hcp⟩ := ih (step (advance p.1 w) (.change p.2)) p.2 hb
      (fun q hq => hgap q (List.mem_cons_of_mem _ hq))
    have htext : lastText p.2 rest = lastText text (p :: rest) := by
      cases rest with
      | nil => simp [lastText]
      | cons q qs =>
        obtain ⟨z, hz⟩ : ∃ z, (q :: qs).getLast? = some z :=
          ⟨_, List.getLast?_eq_getLast _ (List.cons_ne_nil q qs)⟩
        simp [lastText, List.getLast?_cons_cons, hz]
    have htime : lastTime (step (advance p.1 w) (.change p.2)).now rest
        = lastTime w.now (p :: rest) := by
      simp [lastTime, hbn, han]; omega
    rw [hrun]
    refine ⟨?_, ?_, ?_, ?_⟩
    · rw [← htext, ← htime]; exact hc
    · rw [hci, hbi, hai]
    · rw [hcn, htime]
    · rw [hcp, hbp, hap]

theorem onmessage_timers (env : Render) (msg : ParseOutcome) (w : World) :
    (onmessage env msg w).world.timers = w.timers
    ∧ (onmessage env msg w).world.ui.searchTimeout = w.ui.searchTimeout := by
  unfold onmessage
  split
  · exact ⟨rfl, rfl⟩
  · split
    · exact ⟨rfl, rfl⟩
    · split
      · split
        · exact ⟨rfl, rfl⟩
        · constructor <;> (dsimp only; split <;> rfl)
      · exact ⟨rfl, rfl⟩

theorem deliver_timers (n : Nat) (r : Response) (w : World) (o : Outcome)
    (hd : deliver n r w = some o) :
    o.world.timers = w.timers ∧ o.world.ui.searchTimeout = w.ui.searchTimeout := by
  unfold deliver at hd
  split at hd
  · cases r <;> (cases hd; exact ⟨rfl, rfl⟩)
  · cases hd

theorem fire_timers (l : List Timer) :
    ∀ v : World,
      (l.foldl (fun v x => doSearch x.query x.page { v with now := max v.now x.due }) v).timers
          = v.timers
      ∧ (l.foldl (fun v x => doSearch x.query x.page { v with now := max v.now x.due }) v).ui.searchTimeout
          = v.ui.searchTimeout := by
  induction l with
  | nil => intro v; exact ⟨rfl, rfl⟩
  | cons x l ih => intro v; simpa [List.foldl_cons] using ih _

theorem advance_timers (d : Nat) (w : World) :
    (advance d w).timers = w.timers.filter (fun x => !decide (x.due ≤ w.now + d))
    ∧ (advance d w).ui.searchTimeout = w.ui.searchTimeout := by
  unfold advance
  exact ⟨(fire_timers _ _).1, (fire_timers _ _).2⟩

theorem step_timerInv (w : World) (e : Event) (hw : TimerInv w) : TimerInv (step w e) := by
  cases e with
  | change text => exact (onChange_pending w hw text).1.timerInv
  | keyDown keyCode text =>
    have hc := clearTimeout_inv w hw
    left
    by_cases hk : keyCode = 13
    · simpa [step, onKeyDown, hk, doSearch] using hc
    · simpa [step, onKeyDown, hk] using hc
  | pageChange page => simpa [step, paginationOnChange, doSearch, TimerInv] using hw
  | message msg =>
    cases ho : w.onmessage with
    | none => simpa [step, ho] using hw
    | some env =>
      have hkeep := onmessage_timers env msg w
      simpa [step, ho, TimerInv, hkeep.1, hkeep.2] using hw
  | response n r =>
    cases hd : deliver n r w with
    | none => simpa [step, hd] using hw
    | some o =>
      have hkeep := deliver_timers n r w o hd
      simpa [step, hd, TimerInv, hkeep.1, hkeep.2] using hw
  | wait d =>
    obtain ⟨h1, h2⟩ := advance_timers d w
    rcases hw with h | ⟨t, ht, hs⟩
    · left
      simp [step, h1, h]
    · by_cases hdue : t.due ≤ w.now + d
      · left
        simp [step, h1, ht, hdue]
      · right
        exact ⟨t, by simp [step, h1, ht, hdue], by simp [step, h2, hs]⟩
  | poll env =>
    simp only [step, pollTick]
    split
    · exact hw
    · exact hw

theorem run_timerInv (evs : List Event) : ∀ w : World, TimerInv w → TimerInv (run evs w) := by
  induction evs with
  | nil => intro w hw; exact hw
  | cons e evs ih => intro w hw; exact ih _ (step_timerInv w e hw)

/-- C3: for a burst of text changes in which each change comes less than
300 ms after the one before it, started in a state whose only pending timer
(if any) is the one `searchTimeout` names, no request is issued while the
burst lasts, and once 300 ms or more have passed after the last change
exactly one request has been issued: it carries the text of the last change
(and the current page, with limit 20) and it was issued 300 ms after the
last change. After every sequence of events at most one debounce timer is
pending. -/
theorem debounce_issues_single_request (w : World) (hw : TimerInv w) (first : String)
    (rest : List (Nat × String)) (hgap : ∀ p ∈ rest, p.1 < 300) (d : Nat) (hd : 300 ≤ d) :
    (run (burst first rest) w).issued = w.issued
    ∧ (run (burst first rest ++ [.wait d]) w).issued
        = w.issued ++ [(lastTime w.now rest + 300,
            { q := lastText first rest, offset := w.ui.page * 20, limit := 20 })]
    ∧ (run (burst first rest ++ [.wait d]) w).timers = []
    ∧ (∀ evs : List Event, (run evs w).timers.length ≤ 1) := by
  obtain ⟨ha, hai, han, hap⟩ := onChange_pending w hw first
  rw [← han] at ha
  obtain ⟨hb, hbi, hbn, hbp⟩ := burst_pending rest (step w (.change first)) first ha hgap
  have hrun : run (burst first rest) w
      = run (rest.flatMap (fun p => [Event.wait p.1, Event.change p.2]))
          (step w (.change first)) := rfl
  have hrun2 : run (burst first rest ++ [.wait d]) w
      = advance d (run (burst first rest) w) := by
    simp [run, List.foldl_append, step]
  rw [han] at hbn hb
  refine ⟨?_, ?_, ?_, ?_⟩
  · rw [hrun, hbi, hai]
  · rw [hrun2, hrun]
    have h := (advance_long _ _ _ hb d (by rw [hbn]; omega) (by rw [hbn]; omega)).1
    rw [h, hbi, hai, hbp, hap]
  · rw [hrun2, hrun]
    exact (advance_long _ _ _ hb d (by rw [hbn]; omega) (by rw [hbn]; omega)).2
  · intro evs
    rcases run_timerInv evs w hw with h | ⟨t, ht, _⟩
    · simp [h]
    · simp [ht]

/-- Witness for C3: on a fresh screen the text changes to `l`, 100 ms later
to `lo`, 250 ms later to `lov`; 300 ms after that one request has been
issued, at time 650, for `lov`. -/
theorem debounce_issues_single_request_witness :
    (run (burst "l" [(100, "lo"), (250, "lov")] ++ [.wait 300]) World.initial).issued
      = [(650, { q := "lov", offset := 0, limit := 20 })] :=
  (debounce_issues_single_request World.initial (Or.inl rfl) "l" [(100, "lo"), (250, "lov")]
    (by decide) 300 (by decide)).2.1

end VerseFind
